import Mathlib

/-!
Verification development for the snakesist repository: a shallow embedding of
`src/snakesist/exist_client.py`, `src/snakesist/exceptions.py` and
`src/snakesist/delb_plugins.py` in Lean 4, together with theorems settling the
frozen behavioural claims about those modules.

Modelling conventions:
* Python exceptions are values of the `PyError` inductive; a fallible Python
  callable becomes a function into `Except PyError _`.
* In-place mutation of a Python object by a method that may raise becomes a
  function returning `Except PyError Unit × State`: the second component is the
  object's state after the call, whether or not an exception was raised.
* The HTTP transport (httpx) is an external collaborator; it is modelled as an
  oracle mapping the request data the code hands to it (URL, payload) to the
  response the server gives back.  `parse_tree` (delb's XML parser) is likewise
  external: a response carries the parsed tree of its text directly.
* `pathlib.PurePosixPath` is modelled by `PurePosixPath` below, faithful to
  CPython's parsing (leading-slash root detection, dropping of empty and `.`
  components) and to its `__str__` and `.name` accessors.
-/

/-- The Python exceptions raised by the embedded code: the `Snakesist*`
hierarchy of `src/snakesist/exceptions.py` plus the built-in exception classes
the code can raise (`ValueError` from `_validate_filename`, `AssertionError`
from `assert` statements, `IndexError` from sequence indexing,
`AttributeError` from missing attributes).  `snakesistQueryError` carries the
fields `SnakesistQueryError.__init__` stores: the server-reported message
texts, the reported collection path, and the original payload. -/
inductive PyError where
  | valueError (msg : String)
  | assertionError
  | indexError
  | attributeError
  | snakesistConfigError (msg : String)
  | snakesistReadError (msg : String)
  | snakesistNotFound (msg : String)
  | snakesistQueryError (messages : List String) (path : String) (payload : String)
  | snakesistWriteError (msg : String)
deriving DecidableEq

/-- Class test for `SnakesistConfigError`: in `exceptions.py` it has no
subclasses, so exactly the `snakesistConfigError` constructor is of this
class. -/
def PyError.isSnakesistConfigErrorClass : PyError → Bool
  | .snakesistConfigError _ => true
  | _ => false

/-- Whether an `Except` result is an exception. -/
def exceptRaised {α : Type} : Except PyError α → Bool
  | .error _ => true
  | .ok _ => false

/-! ## `pathlib.PurePosixPath` -/

/-- Python `str.split("/")` on a character list: the list of chunks between
slash characters (empty chunks included, as in Python). -/
def splitOnSlash : List Char → List (List Char)
  | [] => [[]]
  | c :: rest =>
    if c = '/' then [] :: splitOnSlash rest
    else
      match splitOnSlash rest with
      | [] => [[c]]
      | w :: ws => (c :: w) :: ws

/-- A path component is kept by `PurePosixPath` iff it is neither empty nor
the single dot. -/
def keepComponent (w : List Char) : Bool :=
  decide (w ≠ []) && decide (w ≠ ['.'])

/-- The number of root slashes `PurePosixPath` records for a path string:
`//` (exactly two leading slashes) is kept as a double root, any other
positive number of leading slashes gives a single root slash, none gives a
relative path. -/
def posixRootSlashes (cs : List Char) : Nat :=
  let k := (cs.takeWhile (fun c => c = '/')).length
  if k = 2 then 2 else if 1 ≤ k then 1 else 0

/-- Model of `pathlib.PurePosixPath`: the root (as a count of root slashes)
and the retained components. -/
structure PurePosixPath where
  rootSlashes : Nat
  comps : List (List Char)
deriving DecidableEq

/-- `PurePosixPath(s)`: parse a path string. -/
def PurePosixPath.ofString (s : String) : PurePosixPath :=
  ⟨posixRootSlashes s.data, (splitOnSlash s.data).filter keepComponent⟩

/-- Join character-list components with `/` separators. -/
def joinSlash : List (List Char) → List Char
  | [] => []
  | [w] => w
  | w :: v :: ws => w ++ '/' :: joinSlash (v :: ws)

/-- The characters of `str(p)` for a `PurePosixPath`: the root slashes
followed by the joined components, or `.` for the empty relative path. -/
def PurePosixPath.strChars (p : PurePosixPath) : List Char :=
  List.replicate p.rootSlashes '/' ++
    (if p.rootSlashes = 0 ∧ p.comps = [] then ['.'] else joinSlash p.comps)

/-- `str(p)` for a `PurePosixPath`. -/
def PurePosixPath.str (p : PurePosixPath) : String :=
  ⟨p.strChars⟩

/-- `p.name` for a `PurePosixPath`: the final component, or `""` when there is
none. -/
def PurePosixPath.name (p : PurePosixPath) : String :=
  ⟨(p.comps.getLast?).getD []⟩

/-! ## Path/identity utilities of `exist_client.py` -/

/-- Python `s.lstrip("/")`: drop every leading slash. -/
def lstripSlash (s : String) : String :=
  ⟨s.data.dropWhile (fun c => c = '/')⟩

/-- `_mangle_path` of `exist_client.py`: `PurePosixPath(path.lstrip("/"))`. -/
def _mangle_path (path : String) : PurePosixPath :=
  PurePosixPath.ofString (lstripSlash path)

/-- `_validate_filename` of `exist_client.py`: raises `ValueError` when
`str(PurePosixPath(filename))` differs from `PurePosixPath(filename).name`.
(The original message quotes the filename with apostrophes; the quotes are
omitted here.) -/
def _validate_filename (filename : String) : Except PyError Unit :=
  let asPath := PurePosixPath.ofString filename
  if asPath.str = asPath.name then .ok ()
  else .error (.valueError ("Invalid filename: " ++ filename))

/-! ## XML trees (delb nodes, as far as the embedded code inspects them) -/

/-- An XML node as the client code observes it through delb: a tag node with a
namespace, a local name, attributes and child nodes, or a text node.  A
response's `parse_tree(response.text)` result is such a value. -/
inductive XNode where
  | elem (ns localName : String) (attributes : List (String × String))
      (children : List XNode)
  | text (content : String)

/-- The child nodes of a node (a text node has none). -/
def XNode.childrenOf : XNode → List XNode
  | .elem _ _ _ ch => ch
  | .text _ => []

mutual

/-- delb's `full_text`: the concatenated text content of a subtree. -/
def XNode.fullText : XNode → String
  | .text s => s
  | .elem _ _ _ ch => XNode.fullTextList ch

/-- `full_text` concatenated over a list of sibling nodes. -/
def XNode.fullTextList : List XNode → String
  | [] => ""
  | n :: rest => XNode.fullText n ++ XNode.fullTextList rest

end

mutual

/-- All proper descendants of a node, in document order. -/
def XNode.descendants : XNode → List XNode
  | .text _ => []
  | .elem _ _ _ ch => XNode.descendantsList ch

/-- The nodes of a sibling list together with all their descendants, in
document order. -/
def XNode.descendantsList : List XNode → List XNode
  | [] => []
  | n :: rest => n :: XNode.descendants n ++ XNode.descendantsList rest

end

/-- Whether a node is a tag node with the given namespace and local name. -/
def XNode.isElemNamed (ns localName : String) : XNode → Bool
  | .elem n l _ _ => n = ns && l = localName
  | .text _ => false

/-- Whether a node is a tag node with the given local name (any namespace):
the match performed by a CSS type selector such as `css_select("message")`. -/
def XNode.hasLocalName (localName : String) : XNode → Bool
  | .elem _ l _ _ => l = localName
  | .text _ => false

/-- delb's `css_select(name)` as the embedded code uses it: the descendant tag
nodes whose local name is `name`, in document order. -/
def cssSelectAll (localName : String) (root : XNode) : List XNode :=
  root.descendants.filter (XNode.hasLocalName localName)

/-! ## Namespaces and query templates of `exist_client.py`

`QueryTemplate.substitute` is plain textual substitution (Python
`string.Template` with `@` as delimiter); each template is embedded as the
function from its placeholder values to the substituted string. -/

/-- The eXist-db result namespace (`EXISTDB_NAMESPACE`). -/
def EXISTDB_NAMESPACE : String := "http://exist.sourceforge.net/NS/exist"

/-- The private wrapper namespace (`SNAKESIST_NAMESPACE`). -/
def SNAKESIST_NAMESPACE : String := "https://snakesist.readthedocs.io/"

/-- `DOCUMENT_BY_ID` with `@document_id` substituted. -/
def DOCUMENT_BY_ID_sub (document_id : String) : String :=
  "util:get-resource-by-absolute-id(" ++ document_id ++ ")"

/-- `FETCH_NODE_QUERY` with `@document_id` and `@node_id` substituted. -/
def FETCH_NODE_QUERY_sub (document_id node_id : String) : String :=
  "util:node-by-id(" ++ DOCUMENT_BY_ID_sub document_id ++ ", \"" ++ node_id ++ "\")"

/-- `DELETE_NODE_QUERY` with its placeholders substituted. -/
def DELETE_NODE_QUERY_sub (document_id node_id : String) : String :=
  "update delete " ++ FETCH_NODE_QUERY_sub document_id node_id

/-- `UPDATE_NODE_QUERY` with its placeholders substituted. -/
def UPDATE_NODE_QUERY_sub (document_id node_id serialisat : String) : String :=
  "update replace " ++ FETCH_NODE_QUERY_sub document_id node_id ++ " with " ++ serialisat

/-- `GET_PATH_OF_RESOURCE_QUERY` with `@document_id` substituted. -/
def GET_PATH_OF_RESOURCE_QUERY_sub (document_id : String) : String :=
  "let $node := " ++ DOCUMENT_BY_ID_sub document_id ++
    " return util:collection-name($node) || \"/\" || util:document-name($node)"

/-- `XQUERY_PAYLOAD` with `@query` substituted: the XML query-request document
POSTed to the database, with the expression embedded in a CDATA section. -/
def XQUERY_PAYLOAD_sub (query : String) : String :=
  "<query xmlns=\"http://exist.sourceforge.net/NS/exist\" start=\"1\" max=\"0\" cache=\"no\">\n" ++
  "  <text><![CDATA[" ++ query ++ "]]></text>\n" ++
  "  <properties>\n" ++
  "    <property name=\"indent\" value=\"no\"/>\n" ++
  "    <property name=\"wrap\" value=\"yes\"/>\n" ++
  "  </properties>\n" ++
  "</query>\n"

/-! ## HTTP responses -/

/-- An HTTP response as the embedded code inspects it: the status code and the
parsed XML tree of the response text (`parse_tree(response.text)`; the XML
parser is an external collaborator, so the parsed tree stands in for the raw
text). -/
structure HttpResponse where
  statusCode : Nat
  body : XNode

/-- A response to a probe request, which additionally inspects the
`Content-Type` header. -/
structure ProbeResponse where
  statusCode : Nat
  contentType : String
  body : XNode

/-- Does the first list lead the second one (`leadMatch p l` iff `l` begins
with `p`)? -/
def leadMatch : List Char → List Char → Bool
  | [], _ => true
  | _ :: _, [] => false
  | a :: as, b :: bs => a = b && leadMatch as bs

/-- `content_type_is_xml` of `exist_client.py`: `re.match` of
`^(application|text)/xml(;.+)?` against the header value.  Because `re.match`
anchors only at the start and the `(;.+)?` group may match the empty string,
the regex matches exactly the strings beginning with `application/xml` or
`text/xml`. -/
def content_type_is_xml (ct : String) : Bool :=
  leadMatch "application/xml".data ct.data || leadMatch "text/xml".data ct.data

/-! ## `ExistClient` -/

/-- The state of an `ExistClient`: the fields of its `ConnectionProps`
(`prefixPath` embeds the mangled `prefix` field; the keyword `prefix` is not a
usable Lean identifier) plus the mutable mangled root collection. -/
structure ExistClient where
  transport : String
  user : String
  password : String
  host : String
  port : Nat
  prefixPath : PurePosixPath
  rootCollectionPath : PurePosixPath
deriving DecidableEq

/-- `ExistClient.__init__`: the prefix and the root collection are mangled on
the way in (the latter through the `root_collection` setter). -/
def ExistClient.init (transport host : String) (port : Nat)
    (user password pfx rootCollection : String) : ExistClient :=
  ⟨transport, user, password, host, port, _mangle_path pfx, _mangle_path rootCollection⟩

/-- The `root_collection` setter: store the mangled path. -/
def ExistClient.setRootCollection (c : ExistClient) (path : String) : ExistClient :=
  { c with rootCollectionPath := _mangle_path path }

/-- The `root_collection` getter: `str(self.__root_collection)`. -/
def ExistClient.root_collection (c : ExistClient) : String :=
  c.rootCollectionPath.str

/-- The `base_url` computed in `ExistClient.__init__`:
`{transport}://{user}:{password}@{host}:{port}/{prefix}`. -/
def ExistClient.baseUrl (c : ExistClient) : String :=
  c.transport ++ "://" ++ c.user ++ ":" ++ c.password ++ "@" ++ c.host ++ ":" ++
    toString c.port ++ "/" ++ c.prefixPath.str

/-- Python `result.endswith("/.")`: the last two characters are `/` then `.`. -/
def endsWithSlashDot (s : String) : Bool :=
  match s.data.reverse with
  | '.' :: '/' :: _ => true
  | _ => false

/-- Python `result[:-2]`: the string without its last two characters. -/
def dropLastTwo (s : String) : String :=
  ⟨(s.data.reverse.drop 2).reverse⟩

/-- The `root_collection_url` getter: `{base_url}/rest/{root_collection}`,
with a trailing `/.` cut off. -/
def ExistClient.root_collection_url (c : ExistClient) : String :=
  let result := c.baseUrl ++ "/rest/" ++ c.root_collection
  if endsWithSlashDot result then dropLastTwo result else result

/-- The body of `SnakesistQueryError.__init__` as a `PyError` value: parse the
response text, assert the root is an `exception` tag node with a `path`
descendant, and record the `message` texts, the path text and the payload.  A
failing `assert` (or `css_select("path").first` being `None`) raises
`AssertionError` instead. -/
def snakesistQueryErrorOf (payload : String) (response : HttpResponse) : PyError :=
  match response.body with
  | .text _ => .assertionError
  | .elem _ localName _ _ =>
    if localName = "exception" then
      match cssSelectAll "path" response.body with
      | [] => .assertionError
      | pathNode :: _ =>
        .snakesistQueryError ((cssSelectAll "message" response.body).map XNode.fullText)
          pathNode.fullText payload
    else .assertionError

/-- `ExistClient.query`: render the XQuery payload, POST it to
`root_collection_url` (the transport is the oracle `respond`, mapping the
request URL and body to the server's response), raise `SnakesistQueryError` on
status 400, `SnakesistReadError` on any other non-2xx status
(httpx `raise_for_status` raises whenever the status is not a 2xx success),
and otherwise return the parsed response tree, asserting it is a tag node. -/
def ExistClient.query (c : ExistClient) (respond : String → String → HttpResponse)
    (query_expression : String) : Except PyError XNode :=
  let payload := XQUERY_PAYLOAD_sub query_expression
  let response := respond c.root_collection_url payload
  if response.statusCode = 400 then
    .error (snakesistQueryErrorOf payload response)
  else if ¬ (200 ≤ response.statusCode ∧ response.statusCode ≤ 299) then
    .error (.snakesistReadError "Unhandled query error.")
  else
    match response.body with
    | .text _ => .error .assertionError
    | .elem ns localName attributes children => .ok (.elem ns localName attributes children)

/-- `//result/value` with the eXist namespace as default, as used by
`ExistClient.__get_document_path_of_node`: every `value` tag node in that
namespace that is a child of a `result` tag node in that namespace, anywhere
in the tree, in document order. -/
def xpathResultValue (root : XNode) : List XNode :=
  (root :: root.descendants).flatMap fun n =>
    match n with
    | .elem ns localName _ children =>
      if ns = EXISTDB_NAMESPACE ∧ localName = "result" then
        children.filter (XNode.isElemNamed EXISTDB_NAMESPACE "value")
      else []
    | .text _ => []

/-- `ExistClient.__get_document_path_of_node`: query
`GET_PATH_OF_RESOURCE_QUERY`, take the first `//result/value` hit (asserting
there is one) and return its full text. -/
def ExistClient.getDocumentPathOfNode (c : ExistClient)
    (respond : String → String → HttpResponse) (document_id : String) :
    Except PyError String :=
  match c.query respond (GET_PATH_OF_RESOURCE_QUERY_sub document_id) with
  | .error e => .error e
  | .ok resultTree =>
    match xpathResultValue resultTree with
    | [] => .error .assertionError
    | n :: _ => .ok n.fullText

/-! ## `NodeResource` -/

/-- The dynamically typed value held by a `NodeResource`'s `node` attribute.
The attribute is documented and initialised as an XML node, but Python never
enforces that, and `update_pull` in fact assigns a whole `NodeResource` object
to it; `resourceObject` represents such a handle object sitting in the `node`
slot (carrying that handle's own fields). -/
inductive NodeValue where
  | xml (node : XNode)
  | resourceObject (document_id node_id document_path : String) (node : NodeValue)

/-- Whether a `node` slot holds an actual XML node. -/
def NodeValue.isXmlNode : NodeValue → Bool
  | .xml _ => true
  | .resourceObject _ _ _ _ => false

/-- The state of a `NodeResource` handle (its coupling to a client is passed
explicitly to each method). -/
structure NodeResource where
  document_id : String
  node_id : String
  document_path : String
  node : NodeValue

/-- A `NodeResource` object as a value stored into a `node` attribute. -/
def NodeResource.toValue (r : NodeResource) : NodeValue :=
  .resourceObject r.document_id r.node_id r.document_path r.node

mutual

/-- delb's `serialize` on a tag or text node, abstractly: the exact textual
form is the XML library's business; the embedding only needs a total
serialisation function to thread into `UPDATE_NODE_QUERY`. -/
def XNode.serialize : XNode → String
  | .text s => s
  | .elem ns localName attributes children =>
    "<" ++ localName ++
      (if ns = "" then "" else " xmlns=\"" ++ ns ++ "\"") ++
      XNode.serializeAttrs attributes ++ ">" ++
      XNode.serializeList children ++ "</" ++ localName ++ ">"

/-- Serialisation of an attribute list. -/
def XNode.serializeAttrs : List (String × String) → String
  | [] => ""
  | (n, v) :: rest => " " ++ n ++ "=\"" ++ v ++ "\"" ++ XNode.serializeAttrs rest

/-- Serialisation of a list of sibling nodes. -/
def XNode.serializeList : List XNode → String
  | [] => ""
  | n :: rest => XNode.serialize n ++ XNode.serializeList rest

end

/-- `node.serialize()` on whatever the `node` attribute holds: a
`NodeResource` object stored there has no `serialize` method, so the call
raises `AttributeError`. -/
def NodeValue.serializeV : NodeValue → Except PyError String
  | .xml n => .ok n.serialize
  | .resourceObject _ _ _ _ => .error .attributeError

/-- `ExistClient.fetch_node`: query `FETCH_NODE_QUERY`, index the result tree
at 0 (its first child node; `IndexError` when there is none), resolve the
containing document's path with a second query, and build a `NodeResource`
whose `node` is the detached fetched node. -/
def ExistClient.fetch_node (c : ExistClient) (respond : String → String → HttpResponse)
    (document_id node_id : String) : Except PyError NodeResource :=
  match c.query respond (FETCH_NODE_QUERY_sub document_id node_id) with
  | .error e => .error e
  | .ok tree =>
    match tree.childrenOf with
    | [] => .error .indexError
    | queried :: _ =>
      match c.getDocumentPathOfNode respond document_id with
      | .error e => .error e
      | .ok p => .ok ⟨document_id, node_id, p, .xml queried⟩

/-- `ExistClient.update_node`: serialize the node and query
`UPDATE_NODE_QUERY`; the query result is discarded. -/
def ExistClient.update_node (c : ExistClient) (respond : String → String → HttpResponse)
    (node : NodeValue) (document_id node_id : String) : Except PyError Unit :=
  match node.serializeV with
  | .error e => .error e
  | .ok serialisat =>
    match c.query respond (UPDATE_NODE_QUERY_sub document_id node_id serialisat) with
    | .error e => .error e
    | .ok _ => .ok ()

/-- `ExistClient.delete_node`: query `DELETE_NODE_QUERY`; the result is
discarded. -/
def ExistClient.delete_node (c : ExistClient) (respond : String → String → HttpResponse)
    (document_id node_id : String) : Except PyError Unit :=
  match c.query respond (DELETE_NODE_QUERY_sub document_id node_id) with
  | .error e => .error e
  | .ok _ => .ok ()

/-- `NodeResource.update_pull`: re-fetch by the stored IDs and assign the
result of `fetch_node` — which is a `NodeResource` object, not an XML node —
to the `node` attribute.  On an exception the handle is unchanged. -/
def NodeResource.update_pull (h : NodeResource) (c : ExistClient)
    (respond : String → String → HttpResponse) : Except PyError Unit × NodeResource :=
  match c.fetch_node respond h.document_id h.node_id with
  | .error e => (.error e, h)
  | .ok r => (.ok (), { h with node := r.toValue })

/-- `NodeResource.update_push`: write the locally held node to the database;
the handle itself is never modified. -/
def NodeResource.update_push (h : NodeResource) (c : ExistClient)
    (respond : String → String → HttpResponse) : Except PyError Unit × NodeResource :=
  match c.update_node respond h.node h.document_id h.node_id with
  | .error e => (.error e, h)
  | .ok _ => (.ok (), h)

/-- `NodeResource.delete`: delete the node remotely, then clear both IDs.  An
exception from `delete_node` propagates before the two clearing assignments
run, leaving the handle unchanged. -/
def NodeResource.delete (h : NodeResource) (c : ExistClient)
    (respond : String → String → HttpResponse) : Except PyError Unit × NodeResource :=
  match c.delete_node respond h.document_id h.node_id with
  | .error e => (.error e, h)
  | .ok _ => (.ok (), { h with document_id := "", node_id := "" })

/-! ## `ExistClient._probe_instance_prefix` -/

/-- Join strings with `/` separators (Python `"/".join`). -/
def joinWithSlash : List String → String
  | [] => ""
  | [w] => w
  | w :: v :: ws => w ++ "/" ++ joinWithSlash (v :: ws)

/-- `PurePosixPath(path).parts[1:]`: pathlib's `parts` starts with the root
when the path is absolute, so dropping the first element removes the root for
an absolute path and the first real component for a relative one. -/
def probePathParts (path : String) : List String :=
  let p := PurePosixPath.ofString path
  (if p.rootSlashes = 0 then p.comps.drop 1 else p.comps).map fun w => ⟨w⟩

/-- The URL probed for candidate length `i`:
`{base}/{"/".join(path_parts[:i])}/rest/`. -/
def candidateUrl (base : String) (parts : List String) (i : Nat) : String :=
  base ++ "/" ++ joinWithSlash (parts.take i) ++ "/rest/"

/-- The loop of `_probe_instance_prefix`, with `i` counting down from the
number of path parts and `enc` the `encountered_collection` flag.  Stepping
from `i+1` to `i` is one loop iteration; at `0` the loop has run out
(Python leaves `i = 1`, so the returned prefix is `path_parts[:1]`), a `break`
returns `path_parts[:i]` for the current `i`, and a 401 response raises
`SnakesistConfigError` ("Failed authentication.").  A response whose
content type is not XML is skipped, or ends the scan when a collection was
already encountered; an XML response is parsed (asserting a tag node) and
counts as an encountered collection exactly when its root is the eXist
namespace's `result` element. -/
def probeGo (respond : String → ProbeResponse) (base : String) (parts : List String) :
    Nat → Bool → Except PyError (Option String)
  | 0, enc =>
    if enc then .ok (some (joinWithSlash (parts.take 1))) else .ok none
  | k + 1, enc =>
    let r := respond (candidateUrl base parts (k + 1))
    if r.statusCode = 401 then .error (.snakesistConfigError "Failed authentication.")
    else if content_type_is_xml r.contentType = false then
      if enc then .ok (some (joinWithSlash (parts.take (k + 1))))
      else probeGo respond base parts k enc
    else
      match r.body with
      | .text _ => .error .assertionError
      | .elem ns localName _ _ =>
        if ns = EXISTDB_NAMESPACE ∧ localName = "result" then
          probeGo respond base parts k true
        else if enc then .ok (some (joinWithSlash (parts.take (k + 1))))
        else probeGo respond base parts k enc

/-- `ExistClient._probe_instance_prefix` (the identifier is shortened because
`prefix` is a Lean keyword): scan the candidate prefixes of `path` from the
full path down to one segment and return the prefix the loop settles on, or
`None` when no eXist `result` envelope was ever encountered. -/
def probeInstancePfx (respond : String → ProbeResponse) (base path : String) :
    Except PyError (Option String) :=
  probeGo respond base (probePathParts path) (probePathParts path).length false

/-- The prefix-determination step of `ExistClient.from_url`: a `None` probe
result becomes a `SnakesistConfigError`. -/
def fromUrlPfx (respond : String → ProbeResponse) (base path : String) :
    Except PyError String :=
  match probeInstancePfx respond base path with
  | .error e => .error e
  | .ok none => .error (.snakesistConfigError "Could not determine the location of the rest interface.")
  | .ok (some p) => .ok p

/-- The predicate the claim (and the probe loop's own comment) say the
returned prefix must satisfy: the probed response has an XML content type and
its root element is the eXist-namespaced `result` element.  This definition
follows the specification's words, for comparison with what the code
returns. -/
def specCandidateMatches (r : ProbeResponse) : Bool :=
  content_type_is_xml r.contentType && r.body.isElemNamed EXISTDB_NAMESPACE "result"

/-! ## `ExistDBExtension` (`delb_plugins.py`) -/

/-- The `existdb` configuration namespace of a document: the client (or
`none` when an invalid object sits in the slot), the collection path and the
filename. -/
structure ExistDBConfig where
  client : Option ExistClient
  collection : PurePosixPath
  filename : String
deriving DecidableEq

/-- `ExistDBExtension._init_config` with no stored location yet: collection
`PurePosixPath(".")`, filename `""`. -/
def initExistDBConfig (client : Option ExistClient) : ExistDBConfig :=
  ⟨client, PurePosixPath.ofString ".", ""⟩

/-- The `existdb_collection` getter: `f"/{self.config.existdb.collection}"`. -/
def existdb_collection_get (cfg : ExistDBConfig) : String :=
  "/" ++ cfg.collection.str

/-- The `existdb_filename` setter: validate, then store. -/
def existdbSetFilename (cfg : ExistDBConfig) (filename : String) :
    Except PyError ExistDBConfig :=
  match _validate_filename filename with
  | .error e => .error e
  | .ok _ => .ok { cfg with filename := filename }

/-- The HTTP transport as `existdb_store` uses it: the status code of a HEAD
request by URL, and the status code of a PUT request by URL and body. -/
structure StoreTransport where
  headStatus : String → Nat
  putStatus : String → String → Nat

/-- The collection `existdb_store` resolves: the document's current
collection (through the `existdb_collection` getter) when the argument is
omitted, else the mangled argument. -/
def storeResolveCollection (cfg : ExistDBConfig) : Option String → String
  | none => existdb_collection_get cfg
  | some c => (_mangle_path c).str

/-- The filename `existdb_store` resolves: the document's current filename
when the argument is omitted, else the argument after validation (whose
`ValueError` propagates). -/
def storeResolveFilename (cfg : ExistDBConfig) : Option String → Except PyError String
  | none => .ok cfg.filename
  | some f =>
    match _validate_filename f with
    | .error e => .error e
    | .ok _ => .ok f

/-- The URL `existdb_store` writes to:
`{client.root_collection_url}/{collection}/{filename}`. -/
def storeUrl (client : ExistClient) (collection filename : String) : String :=
  client.root_collection_url ++ "/" ++ collection ++ "/" ++ filename

/-- `ExistDBExtension.existdb_store`: require a configured client, resolve
collection and filename, raise `SnakesistWriteError` when `replace_existing`
is false and a HEAD request for the target returns 200, then PUT the
serialised document, raising `SnakesistWriteError` when the response is not a
2xx success (httpx `raise_for_status`) or not exactly 201.  The method never
touches `config.existdb`: the second component of the result is the document
configuration afterwards, which is the input configuration in every case. -/
def existdb_store (cfg : ExistDBConfig) (tr : StoreTransport) (content : String)
    (collectionArg filenameArg : Option String) (replace_existing : Bool) :
    Except PyError Unit × ExistDBConfig :=
  match cfg.client with
  | none =>
    (.error (.snakesistConfigError "The document has no configured eXist-db client."), cfg)
  | some client =>
    let collection := storeResolveCollection cfg collectionArg
    match storeResolveFilename cfg filenameArg with
    | .error e => (.error e, cfg)
    | .ok filename =>
      let url := storeUrl client collection filename
      if replace_existing = false ∧ tr.headStatus url = 200 then
        (.error (.snakesistWriteError
          "Document already exists. Overwriting must be allowed explicitly."), cfg)
      else
        let status := tr.putStatus url content
        if ¬ (200 ≤ status ∧ status ≤ 299) then
          (.error (.snakesistWriteError "Unhandled error while storing."), cfg)
        else if status ≠ 201 then
          (.error (.snakesistWriteError ("Unexpected response: " ++ toString status)), cfg)
        else (.ok (), cfg)

/-! ## Concrete instances used by witnesses and counterexamples -/

/-- A client with the constructor's default-like configuration. -/
def exClient : ExistClient :=
  ExistClient.init "http" "localhost" 8080 "admin" "" "exist" "/"

/-- A transport that answers every request with HTTP 500 and an empty body. -/
def respond500 : String → String → HttpResponse := fun _ _ => ⟨500, .text ""⟩

/-- A transport for the `update_pull` scenario: it answers the fetch query for
document `7`, node `1.2` with a `result` envelope containing an `item` node,
and the path query for document `7` with a `result` envelope whose `value` is
`/db/x.xml`. -/
def c1Respond : String → String → HttpResponse := fun _ payload =>
  if payload = XQUERY_PAYLOAD_sub (FETCH_NODE_QUERY_sub "7" "1.2") then
    ⟨200, .elem EXISTDB_NAMESPACE "result" [] [.elem "" "item" [] [.text "one"]]⟩
  else if payload = XQUERY_PAYLOAD_sub (GET_PATH_OF_RESOURCE_QUERY_sub "7") then
    ⟨200, .elem EXISTDB_NAMESPACE "result" [] [.elem EXISTDB_NAMESPACE "value" [] [.text "/db/x.xml"]]⟩
  else ⟨500, .text ""⟩

/-- A bound handle for document `7`, node `1.2`, holding a local `old` node. -/
def c1Handle : NodeResource :=
  ⟨"7", "1.2", "/db/x.xml", .xml (.elem "" "old" [] [])⟩

/-- Base URL for the probe scenario. -/
def c2Base : String := "http://admin:@localhost:8080"

/-- An eXist `result` envelope probe response with an XML content type. -/
def c2XmlOk : ProbeResponse :=
  ⟨200, "application/xml", .elem EXISTDB_NAMESPACE "result" [] []⟩

/-- A non-XML (HTML) probe response. -/
def c2Html : ProbeResponse := ⟨200, "text/html", .text "not found"⟩

/-- Probe responses for the path `/a/b/doc.xml`: only the candidate `a/b`
answers with the eXist `result` envelope; every other candidate answers
HTML. -/
def c2Respond : String → ProbeResponse := fun url =>
  if url = candidateUrl c2Base ["a", "b", "doc.xml"] 2 then c2XmlOk else c2Html

/-- A client bound to an `old` collection for the store scenario. -/
def c3Client : ExistClient :=
  ExistClient.init "http" "localhost" 8080 "admin" "" "exist" "/db/apps"

/-- A document configuration located at collection `old`, file `old.xml`. -/
def c3Cfg : ExistDBConfig :=
  ⟨some c3Client, PurePosixPath.ofString "old", "old.xml"⟩

/-- A transport where no resource exists at any target (HEAD 404) and every
PUT succeeds with 201. -/
def c3Tr : StoreTransport := ⟨fun _ => 404, fun _ _ => 201⟩

/-- A transport where a resource exists at every target (HEAD 200) and every
PUT succeeds with 201. -/
def c3TrB : StoreTransport := ⟨fun _ => 200, fun _ _ => 201⟩

/-- A transport for the deleted-handle scenario: the delete query for
document `5`, node `1.1` succeeds; every other query payload is rejected with
HTTP 400 and an eXist `exception` document. -/
def c4Respond : String → String → HttpResponse := fun _ payload =>
  if payload = XQUERY_PAYLOAD_sub (DELETE_NODE_QUERY_sub "5" "1.1") then
    ⟨200, .elem EXISTDB_NAMESPACE "result" [] []⟩
  else ⟨400, .elem "" "exception" [] [.elem "" "path" [] [.text "/db"]]⟩

/-- A bound handle for document `5`, node `1.1`. -/
def c4Handle : NodeResource := ⟨"5", "1.1", "/db/a.xml", .xml (.elem "" "n" [] [])⟩

/-- An eXist XQuery error document with two messages and a path. -/
def c6ErrBody : XNode :=
  .elem "" "exception" []
    [.elem "" "path" [] [.text "/db/tests"],
     .elem "" "message" [] [.text "expecting expression"],
     .elem "" "message" [] [.text "second message"]]

/-- A transport that rejects every query with HTTP 400 and `c6ErrBody` (the
server's reaction to a syntactically invalid XQuery expression). -/
def c6Respond400 : String → String → HttpResponse := fun _ _ => ⟨400, c6ErrBody⟩

/-- A transport that answers every query with HTTP 200 and an empty `result`
envelope. -/
def c6Respond200 : String → String → HttpResponse :=
  fun _ _ => ⟨200, .elem EXISTDB_NAMESPACE "result" [] []⟩

/-- A bound handle for document `9`, node `2`. -/
def c9Handle : NodeResource := ⟨"9", "2", "/db/y.xml", .xml (.text "t")⟩

/-- Does a reversed character list begin with `.` then `/` (so that the
unreversed list ends with `/.`)? -/
def isDotSlashRev : List Char → Bool
  | '.' :: '/' :: _ => true
  | _ => false

/-! ## General lemmas -/

theorem strData_append (a b : String) : (a ++ b).data = a.data ++ b.data := by
  cases a; cases b; rfl

theorem strMk_data (s : String) : String.mk s.data = s := by
  cases s; rfl

theorem takeWhile_dropWhile_eq_nil (p : Char → Bool) (l : List Char) :
    (l.dropWhile p).takeWhile p = [] := by
  induction l with
  | nil => rfl
  | cons c t ih =>
    by_cases hc : p c
    · simp [List.dropWhile, hc, ih]
    · simp [List.dropWhile, List.takeWhile, hc]

theorem splitOnSlash_no_slash (cs : List Char) :
    ∀ w ∈ splitOnSlash cs, '/' ∉ w := by
  induction cs with
  | nil =>
    intro w hw
    simp [splitOnSlash] at hw
    simp [hw]
  | cons c t ih =>
    intro w hw
    by_cases hc : c = '/'
    · rw [splitOnSlash, if_pos hc] at hw
      rcases List.mem_cons.mp hw with h | h
      · simp [h]
      · exact ih w h
    · rw [splitOnSlash, if_neg hc] at hw
      rcases hsp : splitOnSlash t with _ | ⟨v, vs⟩
      · rw [hsp] at hw
        simp at hw
        subst hw
        simp [hc, Ne.symm hc]
      · rw [hsp] at hw
        rcases List.mem_cons.mp hw with h | h
        · subst h
          intro hmem
          rcases List.mem_cons.mp hmem with h | h
          · exact hc h.symm
          · exact ih v (hsp ▸ List.mem_cons_self v vs) h
        · exact ih w (hsp ▸ List.mem_cons_of_mem v h)

theorem ofString_comps_good (s : String) :
    ∀ w ∈ (PurePosixPath.ofString s).comps, w ≠ [] ∧ w ≠ ['.'] ∧ '/' ∉ w := by
  intro w hw
  rw [PurePosixPath.ofString] at hw
  simp only at hw
  have hmem := List.mem_of_mem_filter hw
  have hkeep := List.of_mem_filter hw
  rw [keepComponent] at hkeep
  simp only [Bool.and_eq_true, decide_eq_true_eq] at hkeep
  exact ⟨hkeep.1, hkeep.2, splitOnSlash_no_slash s.data w hmem⟩

theorem joinSlash_ne_nil (ps : List (List Char))
    (hgood : ∀ w ∈ ps, w ≠ []) (hne : ps ≠ []) : joinSlash ps ≠ [] := by
  match ps, hne with
  | [w], _ =>
    rw [joinSlash]
    exact hgood w (List.mem_singleton_self w)
  | w :: v :: ws, _ =>
    rw [joinSlash]
    intro hcontra
    have := List.append_eq_nil.mp hcontra
    exact List.cons_ne_nil _ _ this.2

theorem endsWithSlashDot_eq (s : String) :
    endsWithSlashDot s = isDotSlashRev s.data.reverse := rfl

theorem joinSlash_rev_no_dotslash (ps : List (List Char))
    (hgood : ∀ w ∈ ps, w ≠ [] ∧ w ≠ ['.'] ∧ '/' ∉ w) (hne : ps ≠ []) :
    ∀ tail, isDotSlashRev ((joinSlash ps).reverse ++ '/' :: tail) = false := by
  induction ps with
  | nil => exact absurd rfl hne
  | cons w ws ih =>
    intro tail
    match ws with
    | [] =>
      rw [joinSlash]
      obtain ⟨hne', hdot, hslash⟩ := hgood w (List.mem_singleton_self w)
      match hrev : w.reverse with
      | [] =>
        exact absurd (by simpa using congrArg List.reverse hrev) hne'
      | [c] =>
        have hw : w = [c] := by simpa using congrArg List.reverse hrev
        have hc : c ≠ '.' := fun h => hdot (by rw [hw, h])
        simp only [hrev, List.cons_append, List.nil_append]
        rw [isDotSlashRev.eq_def]
        split
        · next heq => exact absurd (List.cons.inj heq).1 hc
        · rfl
      | c1 :: c2 :: t =>
        have hc2 : c2 ∈ w := by
          rw [← List.mem_reverse, hrev]
          exact List.mem_cons_of_mem _ (List.mem_cons_self _ _)
        simp only [hrev, List.cons_append]
        rw [isDotSlashRev.eq_def]
        split
        · next heq =>
          have h1 := List.cons.inj heq
          have h2 := List.cons.inj h1.2
          exact absurd (h2.1 ▸ hc2) (hgood w (List.mem_singleton_self w)).2.2
        · rfl
    | v :: vs =>
      rw [joinSlash]
      have hJ : (w ++ '/' :: joinSlash (v :: vs)).reverse ++ '/' :: tail =
          (joinSlash (v :: vs)).reverse ++ '/' :: (w.reverse ++ '/' :: tail) := by
        simp [List.reverse_append, List.append_assoc]
      rw [hJ]
      exact ih (fun u hu => hgood u (List.mem_cons_of_mem w hu)) (List.cons_ne_nil v vs) _

theorem mangle_rootSlashes (path : String) : (_mangle_path path).rootSlashes = 0 := by
  rw [_mangle_path, PurePosixPath.ofString]
  show posixRootSlashes (lstripSlash path).data = 0
  rw [posixRootSlashes]
  have h : (lstripSlash path).data.takeWhile (fun c => c = '/') = [] :=
    takeWhile_dropWhile_eq_nil _ path.data
  rw [h]
  rfl

theorem mangle_comps_good (X : String) :
    ∀ w ∈ (_mangle_path X).comps, w ≠ [] ∧ w ≠ ['.'] ∧ '/' ∉ w :=
  ofString_comps_good (lstripSlash X)

theorem joinSlash_ne_dot (ps : List (List Char))
    (hgood : ∀ w ∈ ps, w ≠ [] ∧ w ≠ ['.'] ∧ '/' ∉ w) (hne : ps ≠ []) :
    joinSlash ps ≠ ['.'] := by
  match ps, hne with
  | [w], _ =>
    rw [joinSlash]
    exact (hgood w (List.mem_singleton_self w)).2.1
  | w :: v :: ws, _ =>
    rw [joinSlash]
    intro hcontra
    have hlen := congrArg List.length hcontra
    simp only [List.length_append, List.length_cons, List.length_nil] at hlen
    have hw : w ≠ [] := (hgood w (List.mem_cons_self _ _)).1
    have hwpos : 0 < w.length := List.length_pos.mpr hw
    omega

theorem mangle_strChars_of_ne (X : String) (hc : (_mangle_path X).comps ≠ []) :
    (_mangle_path X).str.data = joinSlash (_mangle_path X).comps := by
  show (_mangle_path X).strChars = _
  rw [PurePosixPath.strChars, if_neg, mangle_rootSlashes]
  · rfl
  · rintro ⟨_, h2⟩
    exact hc h2

theorem mangle_str_dot_iff (X : String) :
    (_mangle_path X).str = "." ↔ (_mangle_path X).comps = [] := by
  constructor
  · intro h
    by_contra hc
    have hdata := congrArg String.data h
    rw [mangle_strChars_of_ne X hc] at hdata
    exact joinSlash_ne_dot _ (mangle_comps_good X) hc hdata
  · intro h
    rw [PurePosixPath.str]
    have : (_mangle_path X).strChars = ['.'] := by
      rw [PurePosixPath.strChars, mangle_rootSlashes, h]
      rfl
    rw [this]

theorem dotcase_list (l : List Char) :
    isDotSlashRev ((l ++ ['/', 'r', 'e', 's', 't', '/'] ++ ['.']).reverse) = true ∧
    (((l ++ ['/', 'r', 'e', 's', 't', '/'] ++ ['.']).reverse.drop 2).reverse
      = l ++ ['/', 'r', 'e', 's', 't']) := by
  constructor
  · rw [List.reverse_append, List.reverse_append]
    rfl
  · rw [List.reverse_append, List.reverse_append]
    show ('t' :: 's' :: 'e' :: 'r' :: '/' :: l.reverse).reverse = l ++ ['/', 'r', 'e', 's', 't']
    rw [show ('t' :: 's' :: 'e' :: 'r' :: '/' :: l.reverse)
          = ['t', 's', 'e', 'r', '/'] ++ l.reverse from rfl,
        List.reverse_append, List.reverse_reverse]
    rfl

theorem rc_url_dot (b : String) :
    endsWithSlashDot (b ++ "/rest/" ++ ".") = true ∧
    dropLastTwo (b ++ "/rest/" ++ ".") = b ++ "/rest" := by
  have hdata : (b ++ "/rest/" ++ ".").data = b.data ++ ['/', 'r', 'e', 's', 't', '/'] ++ ['.'] := by
    rw [strData_append, strData_append]
  constructor
  · rw [endsWithSlashDot_eq, hdata]
    exact (dotcase_list b.data).1
  · rw [dropLastTwo, hdata, (dotcase_list b.data).2]
    rw [show b.data ++ ['/', 'r', 'e', 's', 't'] = (b ++ "/rest").data from by
      rw [strData_append]]

theorem rc_url_not_dot (b X : String) (hne : (_mangle_path X).str ≠ ".") :
    endsWithSlashDot (b ++ "/rest/" ++ (_mangle_path X).str) = false := by
  have hcomps : (_mangle_path X).comps ≠ [] := fun h => hne ((mangle_str_dot_iff X).mpr h)
  rw [endsWithSlashDot_eq]
  have hdata : (b ++ "/rest/" ++ (_mangle_path X).str).data.reverse =
      (joinSlash (_mangle_path X).comps).reverse ++
        '/' :: (['t', 's', 'e', 'r', '/'] ++ b.data.reverse) := by
    rw [strData_append, strData_append, mangle_strChars_of_ne X hcomps,
      List.reverse_append, List.reverse_append]
    rfl
  rw [hdata]
  exact joinSlash_rev_no_dotslash _ (mangle_comps_good X) hcomps _

theorem name_length_le_join (w : List Char) (ws : List (List Char)) :
    (((w :: ws).getLast?).getD []).length ≤ (joinSlash (w :: ws)).length := by
  induction ws generalizing w with
  | nil => simp [joinSlash]
  | cons v vs ih =>
    rw [List.getLast?_cons_cons, joinSlash]
    calc (((v :: vs).getLast?).getD []).length ≤ (joinSlash (v :: vs)).length := ih v
      _ ≤ (w ++ '/' :: joinSlash (v :: vs)).length := by
          simp only [List.length_append, List.length_cons]
          omega

theorem str_eq_name_iff (p : PurePosixPath) :
    p.str = p.name ↔ (p.rootSlashes = 0 ∧ p.comps.length = 1) := by
  rw [PurePosixPath.str, PurePosixPath.name, String.ext_iff]
  show p.strChars = (p.comps.getLast?).getD [] ↔ _
  constructor
  · intro hchars
    have hlen := congrArg List.length hchars
    cases hnat : p.rootSlashes with
    | zero =>
      cases hcs : p.comps with
      | nil =>
        rw [PurePosixPath.strChars, hnat, hcs] at hchars
        simp at hchars
      | cons w ws =>
        cases hws : ws with
        | nil => exact ⟨rfl, rfl⟩
        | cons v vs =>
          exfalso
          rw [hcs, hws] at hlen
          rw [PurePosixPath.strChars, hnat] at hlen
          rw [hcs, hws] at hlen
          have hred : (List.replicate 0 '/' ++
              (if (0 = 0 ∧ (w :: v :: vs : List (List Char)) = []) then ['.']
               else joinSlash (w :: v :: vs))) = w ++ '/' :: joinSlash (v :: vs) := by
            rw [if_neg (by simp), joinSlash]
            rfl
          rw [hred, List.getLast?_cons_cons] at hlen
          have hle := name_length_le_join v vs
          simp only [List.length_append, List.length_cons] at hlen
          omega
    | succ k =>
      exfalso
      cases hcs : p.comps with
      | nil =>
        rw [PurePosixPath.strChars, hnat, hcs] at hlen
        simp [joinSlash] at hlen
      | cons w ws =>
        rw [PurePosixPath.strChars, hnat, hcs] at hlen
        have hle := name_length_le_join w ws
        rw [if_neg (by simp)] at hlen
        simp only [List.length_append, List.length_replicate] at hlen
        omega
  · rintro ⟨h0, h1⟩
    rcases List.length_eq_one.mp h1 with ⟨w, hw⟩
    rw [PurePosixPath.strChars, h0, hw]
    simp [joinSlash]

theorem query_raises_of_400 (c : ExistClient) (respond : String → String → HttpResponse)
    (expr : String)
    (h400 : (respond c.root_collection_url (XQUERY_PAYLOAD_sub expr)).statusCode = 400) :
    c.query respond expr =
      .error (snakesistQueryErrorOf (XQUERY_PAYLOAD_sub expr)
        (respond c.root_collection_url (XQUERY_PAYLOAD_sub expr))) := by
  simp only [ExistClient.query]
  rw [if_pos h400]

/-! ## Claim theorems -/

set_option maxRecDepth 16384

/-- C1: `update_pull` re-fetches by `(document_id, node_id)`, but it assigns
the whole `NodeResource` returned by `fetch_node` to the handle's `node`
attribute instead of the fetched XML node: at the concrete bound handle
`c1Handle` and the transport `c1Respond`, `fetch_node` returns the handle
wrapping the fetched `item` node, the pull succeeds, and afterwards the `node`
attribute holds a `NodeResource` object — not an XML node.  This evaluates the
code at the failing input of the claim (a code bug: the repository's own test
`test_update_push_and_pull` reads `resource.node.local_name` after
`update_pull`, which this stored object cannot provide). -/
theorem update_pull_assigns_resource_object :
    exClient.fetch_node c1Respond "7" "1.2" =
      .ok ⟨"7", "1.2", "/db/x.xml", .xml (.elem "" "item" [] [.text "one"])⟩ ∧
    (c1Handle.update_pull exClient c1Respond).1 = .ok () ∧
    (c1Handle.update_pull exClient c1Respond).2.node =
      NodeValue.resourceObject "7" "1.2" "/db/x.xml" (.xml (.elem "" "item" [] [.text "one"])) ∧
    (c1Handle.update_pull exClient c1Respond).2.node.isXmlNode = false :=
  ⟨rfl, rfl, rfl, rfl⟩

/-- C2: the prefix probe does not return the longest candidate prefix
satisfying the XML-`result`-envelope predicate: for the URL path
`/a/b/doc.xml` with responses under `c2Respond`, the candidate `a/b` (length
2) satisfies the predicate and the candidates of lengths 3 and 1 do not, yet
the probe returns `a` — the break-index prefix, which does not satisfy the
predicate at all.  This evaluates the code at the failing input of the claim
(a code bug: the loop's own comment says it "looks for longest path"). -/
theorem probe_returns_break_index_candidate :
    probeInstancePfx c2Respond c2Base "/a/b/doc.xml" = .ok (some "a") ∧
    probePathParts "/a/b/doc.xml" = ["a", "b", "doc.xml"] ∧
    specCandidateMatches (c2Respond (candidateUrl c2Base ["a", "b", "doc.xml"] 2)) = true ∧
    specCandidateMatches (c2Respond (candidateUrl c2Base ["a", "b", "doc.xml"] 3)) = false ∧
    specCandidateMatches (c2Respond (candidateUrl c2Base ["a", "b", "doc.xml"] 1)) = false :=
  ⟨rfl, rfl, rfl, rfl, rfl⟩

/-- C3 counterexample: storing with explicit new collection and filename
succeeds (no resource at the target, PUT answers 201), yet the document's
local collection and filename are NOT updated to the new target location —
the configuration is returned unchanged, refuting the claim's final
conjunct. -/
theorem existdb_store_does_not_rebind :
    (existdb_store c3Cfg c3Tr "<test/>" (some "/new") (some "new.xml") false).1 = .ok () ∧
    (existdb_store c3Cfg c3Tr "<test/>" (some "/new") (some "new.xml") false).2 = c3Cfg ∧
    c3Cfg.collection ≠ _mangle_path "/new" ∧
    c3Cfg.filename ≠ "new.xml" :=
  ⟨rfl, rfl, by decide, by decide⟩

/-- C3 (amended): for every document with a configured client,
`existdb_store` targets the URL built from the resolved collection and
filename — which default to the document's current ones when the arguments
are omitted — raises a `SnakesistWriteError` when `replace_existing` is false
and a HEAD request for the target answers 200, succeeds when
`replace_existing` is true and the PUT answers 201 (overwriting without any
existence check), and in every case leaves the document's local collection
and filename unchanged. -/
theorem existdb_store_amended (cfg : ExistDBConfig) (client : ExistClient)
    (tr : StoreTransport) (content : String) (collectionArg filenameArg : Option String)
    (replace_existing : Bool) (hclient : cfg.client = some client) :
    ((existdb_store cfg tr content collectionArg filenameArg replace_existing).2 = cfg) ∧
    (∀ filename, storeResolveFilename cfg filenameArg = .ok filename →
      replace_existing = false →
      tr.headStatus (storeUrl client (storeResolveCollection cfg collectionArg) filename) = 200 →
      (existdb_store cfg tr content collectionArg filenameArg replace_existing).1 =
        .error (.snakesistWriteError
          "Document already exists. Overwriting must be allowed explicitly.")) ∧
    (∀ filename, storeResolveFilename cfg filenameArg = .ok filename →
      replace_existing = true →
      tr.putStatus (storeUrl client (storeResolveCollection cfg collectionArg) filename)
        content = 201 →
      (existdb_store cfg tr content collectionArg filenameArg replace_existing).1 = .ok ()) ∧
    (storeResolveCollection cfg none = existdb_collection_get cfg) ∧
    (storeResolveFilename cfg none = .ok cfg.filename) := by
  refine ⟨?_, ?_, ?_, rfl, rfl⟩
  · rw [existdb_store, hclient]
    cases hsf : storeResolveFilename cfg filenameArg with
    | error e => rfl
    | ok fn =>
      show (if replace_existing = false ∧
            tr.headStatus (storeUrl client (storeResolveCollection cfg collectionArg) fn) = 200
          then ((Except.error (PyError.snakesistWriteError
            "Document already exists. Overwriting must be allowed explicitly."),
            cfg) : Except PyError Unit × ExistDBConfig)
          else
            if ¬ (200 ≤ tr.putStatus
                  (storeUrl client (storeResolveCollection cfg collectionArg) fn) content ∧
                tr.putStatus
                  (storeUrl client (storeResolveCollection cfg collectionArg) fn) content ≤ 299)
            then (Except.error (PyError.snakesistWriteError "Unhandled error while storing."), cfg)
            else
              if tr.putStatus
                  (storeUrl client (storeResolveCollection cfg collectionArg) fn) content ≠ 201
              then (Except.error (PyError.snakesistWriteError
                ("Unexpected response: " ++ toString (tr.putStatus
                  (storeUrl client (storeResolveCollection cfg collectionArg) fn) content))), cfg)
              else (Except.ok (), cfg)).2 = cfg
      split
      · rfl
      · split
        · rfl
        · split
          · rfl
          · rfl
  · intro filename hfn hrep h200
    subst hrep
    simp only [existdb_store, hclient, hfn]
    rw [if_pos (And.intro trivial h200)]
  · intro filename hfn hrep h201
    subst hrep
    simp only [existdb_store, hclient, hfn]
    rw [if_neg (by simp), h201]
    simp

/-- C3 witness: with the current location `old/old.xml` and omitted
arguments, a HEAD answering 200 plus `replace_existing := false` yields the
conflict `SnakesistWriteError`, `replace_existing := true` succeeds, and the
configuration is unchanged. -/
theorem existdb_store_amended_witness :
    (existdb_store c3Cfg c3TrB "<d/>" none none false).1 =
      .error (.snakesistWriteError
        "Document already exists. Overwriting must be allowed explicitly.") ∧
    (existdb_store c3Cfg c3TrB "<d/>" none none true).1 = .ok () ∧
    (existdb_store c3Cfg c3TrB "<d/>" none none true).2 = c3Cfg := by
  refine ⟨?_, ?_, ?_⟩
  · exact (existdb_store_amended c3Cfg c3Client c3TrB "<d/>" none none false rfl).2.1
      "old.xml" rfl rfl rfl
  · exact (existdb_store_amended c3Cfg c3Client c3TrB "<d/>" none none true rfl).2.2.1
      "old.xml" rfl rfl rfl
  · exact (existdb_store_amended c3Cfg c3Client c3TrB "<d/>" none none true rfl).1

/-- C4: after a successful `delete()` the handle's `document_id` and
`node_id` are the empty string, and subsequent `update_pull()` or
`update_push()` calls on the handle fail (raise) rather than silently doing
nothing: the queries they then render contain the zero-arity call
`util:get-resource-by-absolute-id()`, which an eXist server rejects with HTTP
400 — the two status hypotheses state exactly that server behaviour for the
two payloads the deleted handle would send. -/
theorem deleted_handle_terminal (h : NodeResource) (c : ExistClient)
    (respond : String → String → HttpResponse)
    (hdel : (h.delete c respond).1 = .ok ())
    (hpull : (respond c.root_collection_url
      (XQUERY_PAYLOAD_sub (FETCH_NODE_QUERY_sub "" ""))).statusCode = 400)
    (hpush : ∀ n, h.node = NodeValue.xml n →
      (respond c.root_collection_url
        (XQUERY_PAYLOAD_sub (UPDATE_NODE_QUERY_sub "" "" n.serialize))).statusCode = 400) :
    (h.delete c respond).2.document_id = "" ∧
    (h.delete c respond).2.node_id = "" ∧
    exceptRaised ((h.delete c respond).2.update_pull c respond).1 = true ∧
    exceptRaised ((h.delete c respond).2.update_push c respond).1 = true := by
  rw [NodeResource.delete] at hdel ⊢
  cases hd : c.delete_node respond h.document_id h.node_id with
  | error e =>
    rw [hd] at hdel
    simp at hdel
  | ok u =>
    refine ⟨rfl, rfl, ?_, ?_⟩
    · show exceptRaised ((NodeResource.mk "" "" h.document_path h.node).update_pull c respond).1
        = true
      rw [NodeResource.update_pull]
      dsimp only
      rw [ExistClient.fetch_node]
      rw [query_raises_of_400 c respond (FETCH_NODE_QUERY_sub "" "") hpull]
      rfl
    · show exceptRaised ((NodeResource.mk "" "" h.document_path h.node).update_push c respond).1
        = true
      rw [NodeResource.update_push]
      dsimp only
      rw [ExistClient.update_node]
      cases hn : h.node with
      | xml n =>
        dsimp only [NodeValue.serializeV]
        rw [query_raises_of_400 c respond (UPDATE_NODE_QUERY_sub "" "" n.serialize)
          (hpush n hn)]
        rfl
      | resourceObject a b d m => rfl

/-- C4 witness: the scenario of `c4Handle` and `c4Respond`, where the delete
query succeeds and every other query is rejected with HTTP 400. -/
theorem deleted_handle_terminal_witness :
    (c4Handle.delete exClient c4Respond).2.document_id = "" ∧
    (c4Handle.delete exClient c4Respond).2.node_id = "" ∧
    exceptRaised ((c4Handle.delete exClient c4Respond).2.update_pull exClient c4Respond).1
      = true ∧
    exceptRaised ((c4Handle.delete exClient c4Respond).2.update_push exClient c4Respond).1
      = true :=
  deleted_handle_terminal c4Handle exClient c4Respond rfl rfl
    (fun n hn => by
      have hx : NodeValue.xml (XNode.elem "" "n" [] []) = NodeValue.xml n := hn
      injection hx with hx2
      rw [← hx2]
      rfl)

/-- C5 counterexample: `_validate_filename "a/b"` fails with a plain
`ValueError`, which is not an error of the `SnakesistConfigError` class, so
the claim's "fails with a ConfigError-class error" is false at `"a/b"`; and
`_validate_filename ""` fails although the empty string, interpreted as a
path, has zero segments, so "exactly when the string has more than one
segment" is false at `""`. -/
theorem validate_filename_not_configerror :
    _validate_filename "a/b" = .error (.valueError "Invalid filename: a/b") ∧
    (PyError.valueError "Invalid filename: a/b").isSnakesistConfigErrorClass = false ∧
    _validate_filename "b" = .ok () ∧
    _validate_filename "" = .error (.valueError "Invalid filename: ") ∧
    (PurePosixPath.ofString "").comps.length = 0 :=
  ⟨rfl, rfl, rfl, rfl, rfl⟩

/-- C5 (amended): `_validate_filename` fails with a `ValueError` exactly when
the string is not a single relative path segment — that is, unless the parsed
path is relative and has exactly one retained component (so absolute strings,
the empty string, `"."` and multi-segment strings fail); in particular
`"a/b"` fails and `"b"` succeeds. -/
theorem validate_filename_amended (s : String) :
    (_validate_filename s = .ok () ↔
      ((PurePosixPath.ofString s).rootSlashes = 0 ∧
        (PurePosixPath.ofString s).comps.length = 1)) ∧
    (_validate_filename s = .ok () ∨
      _validate_filename s = .error (.valueError ("Invalid filename: " ++ s))) := by
  constructor
  · rw [← str_eq_name_iff]
    simp only [_validate_filename]
    by_cases h : (PurePosixPath.ofString s).str = (PurePosixPath.ofString s).name
    · simp [h]
    · simp [h]
  · simp only [_validate_filename]
    by_cases h : (PurePosixPath.ofString s).str = (PurePosixPath.ofString s).name
    · simp [h]
    · simp [h]

/-- C6: `ExistClient.query` classifies server responses as the claim says: a
status-400 response whose body is the structured eXist `exception` document
(an `exception` root with at least one `path` descendant) raises
`SnakesistQueryError` carrying the server-reported message texts, the
reported collection path and the original payload; any other non-2xx status
raises `SnakesistReadError`; and a 2xx status returns the parsed XML result
document.  In particular a syntactically invalid XQuery expression — which
the server answers with status 400 — raises the query error, not the generic
read error. -/
theorem query_status_dispatch (c : ExistClient) (respond : String → String → HttpResponse)
    (expr : String) (r : HttpResponse)
    (hr : respond c.root_collection_url (XQUERY_PAYLOAD_sub expr) = r) :
    (∀ ns attrs children pathNode rest,
      r.statusCode = 400 →
      r.body = XNode.elem ns "exception" attrs children →
      cssSelectAll "path" r.body = pathNode :: rest →
      c.query respond expr = .error (.snakesistQueryError
        ((cssSelectAll "message" r.body).map XNode.fullText) pathNode.fullText
        (XQUERY_PAYLOAD_sub expr))) ∧
    (r.statusCode ≠ 400 → ¬ (200 ≤ r.statusCode ∧ r.statusCode ≤ 299) →
      c.query respond expr = .error (.snakesistReadError "Unhandled query error.")) ∧
    (∀ ns localName attrs children,
      200 ≤ r.statusCode → r.statusCode ≤ 299 →
      r.body = XNode.elem ns localName attrs children →
      c.query respond expr = .ok r.body) := by
  refine ⟨?_, ?_, ?_⟩
  · intro ns attrs children pathNode rest h400 hbody hpath
    simp only [ExistClient.query, hr]
    rw [if_pos h400]
    rw [snakesistQueryErrorOf.eq_def]
    rw [hbody] at hpath ⊢
    rw [hpath]
    rfl
  · intro h400 h2xx
    simp only [ExistClient.query, hr]
    rw [if_neg h400, if_pos h2xx]
  · intro ns localName attrs children hge hle hbody
    simp only [ExistClient.query, hr]
    rw [if_neg (fun h => by omega), if_neg (not_not_intro ⟨hge, hle⟩)]
    rw [hbody]

/-- C6 witness: a 400 response with a two-message `exception` body yields the
structured `SnakesistQueryError`, a 500 response yields the generic
`SnakesistReadError`, and a 200 response returns the parsed body. -/
theorem query_status_dispatch_witness :
    exClient.query c6Respond400 "let $x :=" =
      .error (.snakesistQueryError ["expecting expression", "second message"] "/db/tests"
        (XQUERY_PAYLOAD_sub "let $x :=")) ∧
    exClient.query respond500 "//p" = .error (.snakesistReadError "Unhandled query error.") ∧
    exClient.query c6Respond200 "//p" = .ok (.elem EXISTDB_NAMESPACE "result" [] []) := by
  refine ⟨?_, ?_, ?_⟩
  · exact (query_status_dispatch exClient c6Respond400 "let $x :=" _ rfl).1
      "" [] _ (XNode.elem "" "path" [] [.text "/db/tests"]) [] rfl rfl rfl
  · exact (query_status_dispatch exClient respond500 "//p" _ rfl).2.1
      (by decide) (by decide)
  · exact (query_status_dispatch exClient c6Respond200 "//p" _ rfl).2.2
      EXISTDB_NAMESPACE "result" [] [] (by decide) (by decide) rfl

/-- C7: for every connection tuple and every path `X`, setting
`root_collection` to `X` and reading it back yields the mangled
(leading-slash-stripped, canonicalised) form of `X`, and `root_collection_url`
composes `{base_url}/rest/{root_collection}` — except that when the stored
root collection is the synthetic current-directory marker `.` (the only way a
trailing `/.` can arise), the generated trailing `/.` is cut off. -/
theorem root_collection_url_round_trip (transport host user password pfx X : String)
    (port : Nat) :
    (((ExistClient.init transport host port user password pfx "/").setRootCollection X).root_collection
      = (_mangle_path X).str) ∧
    ((_mangle_path X).str = "." →
      ((ExistClient.init transport host port user password pfx "/").setRootCollection X).root_collection_url
        = ((ExistClient.init transport host port user password pfx "/").setRootCollection X).baseUrl
          ++ "/rest") ∧
    ((_mangle_path X).str ≠ "." →
      ((ExistClient.init transport host port user password pfx "/").setRootCollection X).root_collection_url
        = ((ExistClient.init transport host port user password pfx "/").setRootCollection X).baseUrl
          ++ "/rest/" ++ (_mangle_path X).str) := by
  refine ⟨rfl, ?_, ?_⟩
  · intro hdot
    show (if endsWithSlashDot (((ExistClient.init transport host port user password pfx
            "/").setRootCollection X).baseUrl ++ "/rest/" ++ (_mangle_path X).str)
        then dropLastTwo (((ExistClient.init transport host port user password pfx
            "/").setRootCollection X).baseUrl ++ "/rest/" ++ (_mangle_path X).str)
        else ((ExistClient.init transport host port user password pfx
            "/").setRootCollection X).baseUrl ++ "/rest/" ++ (_mangle_path X).str) = _
    rw [hdot]
    rw [if_pos (rc_url_dot _).1]
    exact (rc_url_dot _).2
  · intro hne
    show (if endsWithSlashDot (((ExistClient.init transport host port user password pfx
            "/").setRootCollection X).baseUrl ++ "/rest/" ++ (_mangle_path X).str)
        then dropLastTwo (((ExistClient.init transport host port user password pfx
            "/").setRootCollection X).baseUrl ++ "/rest/" ++ (_mangle_path X).str)
        else ((ExistClient.init transport host port user password pfx
            "/").setRootCollection X).baseUrl ++ "/rest/" ++ (_mangle_path X).str) = _
    rw [if_neg (by rw [rc_url_not_dot _ X hne]; exact Bool.false_ne_true)]

/-- C7 witness: the composition and the round trip at a concrete connection
tuple, once with a real collection path and once with the root path `/`. -/
theorem root_collection_url_round_trip_witness :
    ((ExistClient.init "http" "h" 80 "u" "p" "exist" "/").setRootCollection "/db/stuff/").root_collection
      = "db/stuff" ∧
    ((ExistClient.init "http" "h" 80 "u" "p" "exist" "/").setRootCollection "/db/stuff/").root_collection_url
      = "http://u:p@h:80/exist/rest/db/stuff" ∧
    ((ExistClient.init "http" "h" 80 "u" "p" "exist" "/").setRootCollection "/").root_collection_url
      = "http://u:p@h:80/exist/rest" := by
  refine ⟨?_, ?_, ?_⟩
  · exact ((root_collection_url_round_trip "http" "h" "u" "p" "exist" "/db/stuff/" 80).1).trans
      (by decide)
  · exact (((root_collection_url_round_trip "http" "h" "u" "p" "exist" "/db/stuff/" 80).2.2
      (by decide)).trans (by decide))
  · exact (((root_collection_url_round_trip "http" "h" "u" "p" "exist" "/" 80).2.1
      (by decide)).trans (by decide))

/-- C8: `_mangle_path` is insensitive to a leading slash — for every string
`s`, mangling `"/" ++ s` and `s` gives the same path — the result is always a
relative (rootless) path, and in particular `_mangle_path "/a/b/"` equals
`_mangle_path "a/b/"`. -/
theorem mangle_path_slash_insensitive (s : String) :
    _mangle_path ("/" ++ s) = _mangle_path s ∧
    (_mangle_path s).rootSlashes = 0 ∧
    _mangle_path "/a/b/" = _mangle_path "a/b/" := by
  refine ⟨?_, mangle_rootSlashes s, by decide⟩
  have hd : ("/" ++ s).data = '/' :: s.data := by cases s; rfl
  rw [_mangle_path, _mangle_path, lstripSlash, lstripSlash, hd]
  rw [List.dropWhile_cons]
  simp

/-- C9: `NodeResource.delete` is atomic with respect to the handle's
identity: when the underlying delete-node query raises, the handle's
`document_id` and `node_id` are left unchanged — the clearing assignments run
only after the remote delete succeeded. -/
theorem delete_preserves_ids_on_error (h : NodeResource) (c : ExistClient)
    (respond : String → String → HttpResponse) (e : PyError)
    (herr : (h.delete c respond).1 = .error e) :
    (h.delete c respond).2.document_id = h.document_id ∧
    (h.delete c respond).2.node_id = h.node_id := by
  rw [NodeResource.delete] at herr ⊢
  cases hd : c.delete_node respond h.document_id h.node_id with
  | error e2 => exact ⟨rfl, rfl⟩
  | ok u =>
    rw [hd] at herr
    simp at herr

/-- C9 witness: a transport answering 500 makes the delete query raise
`SnakesistReadError`, and the handle keeps its IDs. -/
theorem delete_preserves_ids_on_error_witness :
    (c9Handle.delete exClient respond500).1 =
      .error (.snakesistReadError "Unhandled query error.") ∧
    (c9Handle.delete exClient respond500).2.document_id = "9" ∧
    (c9Handle.delete exClient respond500).2.node_id = "2" := by
  refine ⟨rfl, ?_, ?_⟩
  · exact (delete_preserves_ids_on_error c9Handle exClient respond500
      (.snakesistReadError "Unhandled query error.") rfl).1
  · exact (delete_preserves_ids_on_error c9Handle exClient respond500
      (.snakesistReadError "Unhandled query error.") rfl).2

/-- C10: `_validate_filename` rejects the empty string and `"."` — for both,
the parsed path's string form (`"."`) differs from its final-component name
(`""`) — so assigning an empty filename through the `existdb_filename` setter
always fails with the `ValueError`, even though the empty string is the
initial default filename set by `_init_config` for a freshly initialised
document configuration. -/
theorem validate_filename_rejects_empty_and_dot (client : Option ExistClient)
    (cfg : ExistDBConfig) :
    (PurePosixPath.ofString "").str = "." ∧ (PurePosixPath.ofString "").name = "" ∧
    (PurePosixPath.ofString ".").str = "." ∧ (PurePosixPath.ofString ".").name = "" ∧
    _validate_filename "" = .error (.valueError "Invalid filename: ") ∧
    _validate_filename "." = .error (.valueError "Invalid filename: .") ∧
    existdbSetFilename cfg "" = .error (.valueError "Invalid filename: ") ∧
    (initExistDBConfig client).filename = "" :=
  ⟨rfl, rfl, rfl, rfl, rfl, rfl, rfl, rfl⟩
